import Mathlib

/-!
Shallow embedding of the LMS backend's course / enrollment / progress /
review / password-reset logic (apps/courses/views.py, apps/courses/models.py,
apps/courses/serializers.py, apps/authentication/views.py,
apps/authentication/serializers_extra.py, apps/authentication/models.py).

Database tables become lists of records; each HTTP view becomes a total
function from the database state (plus the request's caller and body) to a
result and the successor state.  Decimal/float arithmetic in the source is
modelled over ℚ; timestamps are natural numbers (minutes).
-/

namespace LMS

/-- Roles stored on a user's profile (`apps/users`: Role.name ∈
{Admin, Teacher, Student}). -/
inductive Role
  | admin
  | teacher
  | student
deriving DecidableEq

/-- An authenticated request user together with the role on their profile
(`role` is `none` when the profile has no role assigned). -/
structure Caller where
  userId : Nat
  role : Option Role
deriving DecidableEq

/-- `is_student(user)` from apps/courses/views.py: the profile's role exists
and its name is 'Student'. -/
def is_student (u : Caller) : Bool :=
  match u.role with
  | some .student => true
  | _ => false

/-- CourseEnrollment.STATUS_CHOICES. -/
inductive EnrollStatus
  | enrolled
  | completed
  | dropped
  | suspended
deriving DecidableEq

/-- Course (apps/courses/models.py).  Only the fields the verified views
read are modelled. -/
structure Course where
  id : Nat
  title : String
  slug : String
  teacher : Nat
  is_published : Bool
  max_students : Option Nat
deriving DecidableEq

/-- CourseModule (apps/courses/models.py). -/
structure CourseModule where
  id : Nat
  courseId : Nat
  is_published : Bool
deriving DecidableEq

/-- Lesson (apps/courses/models.py). -/
structure Lesson where
  id : Nat
  moduleId : Nat
  is_published : Bool
deriving DecidableEq

/-- CourseEnrollment row (apps/courses/models.py).  `progress_percentage`
is a DecimalField, modelled over ℚ; `completed_at` a nullable timestamp. -/
structure CourseEnrollment where
  student : Nat
  courseId : Nat
  status : EnrollStatus
  is_active : Bool
  progress_percentage : ℚ
  completed_at : Option Nat
deriving DecidableEq

/-- LessonProgress row (apps/courses/models.py).  `time_spent_minutes` is
kept as ℤ because the view adds `int(request.data['time_spent_minutes'])`,
which may be negative, to it. -/
structure LessonProgress where
  student : Nat
  lessonId : Nat
  is_completed : Bool
  completion_percentage : ℚ
  time_spent_minutes : Int
  completed_at : Option Nat
deriving DecidableEq

/-- The relational store: one list per table. -/
structure DB where
  courses : List Course
  modules : List CourseModule
  lessons : List Lesson
  enrollments : List CourseEnrollment
  lessonProgress : List LessonProgress
deriving DecidableEq

/-- Active-enrollment count of a course
(`self.course_enrollments.filter(is_active=True).count()`). -/
def activeEnrollCount (db : DB) (cid : Nat) : Nat :=
  (db.enrollments.filter (fun e => e.courseId == cid && e.is_active)).length

/-- `Course.is_full` (models.py L75-81).  `if self.max_students:` is Python
truthiness, so it is False both when `max_students` is NULL and when it is 0;
only then is the active-enrollment count compared against the cap. -/
def Course.is_full (db : DB) (c : Course) : Bool :=
  match c.max_students with
  | none => false
  | some 0 => false
  | some m => activeEnrollCount db c.id ≥ m

/-- Result of POST /courses/{id}/enroll/. -/
inductive EnrollResult
  | authRequired
  | notFound
  | notAStudent
  | alreadyEnrolled
  | courseFull
  | created
deriving DecidableEq

/-- `enroll_course` (views.py L927-957).  The course is looked up with
`get_object_or_404(Course, id=course_id, is_published=True)`; the
permission class `IsAuthenticated` rejects anonymous callers first. -/
def enroll_course (db : DB) (user : Option Caller) (cid : Nat) :
    EnrollResult × DB :=
  match user with
  | none => (.authRequired, db)
  | some u =>
    match db.courses.find? (fun c => c.id == cid && c.is_published) with
    | none => (.notFound, db)
    | some course =>
      if is_student u then
        if db.enrollments.any
            (fun e => e.student == u.userId && e.courseId == cid) then
          (.alreadyEnrolled, db)
        else if course.is_full db then
          (.courseFull, db)
        else
          -- CourseEnrollment.objects.create(student, course): model defaults
          -- status='enrolled', is_active=True, progress_percentage=0.
          (.created,
           { db with enrollments := db.enrollments ++
               [{ student := u.userId, courseId := cid,
                  status := .enrolled, is_active := true,
                  progress_percentage := 0, completed_at := none }] })
      else
        (.notAStudent, db)

/-- Result of POST /courses/{id}/unenroll/. -/
inductive UnenrollResult
  | authRequired
  | notFound
  | notEnrolled
  | ok
deriving DecidableEq

/-- `unenroll_course` (views.py L967-985): looks the course up by id with no
publish filter, fetches the (student, course) enrollment regardless of its
active flag, and sets is_active=False, status='dropped'. -/
def unenroll_course (db : DB) (user : Option Caller) (cid : Nat) :
    UnenrollResult × DB :=
  match user with
  | none => (.authRequired, db)
  | some u =>
    match db.courses.find? (fun c => c.id == cid) with
    | none => (.notFound, db)
    | some _ =>
      if db.enrollments.any
          (fun e => e.student == u.userId && e.courseId == cid) then
        (.ok,
         { db with enrollments := db.enrollments.map (fun e =>
             if e.student == u.userId && e.courseId == cid then
               { e with is_active := false, status := .dropped }
             else e) })
      else
        (.notEnrolled, db)

/-- Result of GET /courses/{slug}/. -/
inductive CourseDetailResult
  | ok (c : Course)
  /-- generic 404 raised by `get_object_or_404` when the lookup fails -/
  | http404
  /-- 404 with body `{'error': 'Course not found'}` -/
  | courseNotFound
deriving DecidableEq

/-- HTTP status code of a course-detail response. -/
def CourseDetailResult.statusCode : CourseDetailResult → Nat
  | .ok _ => 200
  | .http404 => 404
  | .courseNotFound => 404

/-- `course_detail` GET branch (views.py L494-517).  The lookup is
`get_object_or_404(Course, title=slug)` — it matches the path parameter
against the `title` column, not the `slug` column. -/
def course_detail_get (db : DB) (user : Option Caller) (slugParam : String) :
    CourseDetailResult :=
  match db.courses.find? (fun c => c.title == slugParam) with
  | none => .http404
  | some course =>
    if course.is_published then
      .ok course
    else
      match user with
      | none => .courseNotFound
      | some u =>
        if course.teacher == u.userId then .ok course
        else .courseNotFound

/-- Result of GET /modules/{id}/. -/
inductive ModuleDetailResult
  | ok (m : CourseModule)
  | http404
  | authRequired
  | accessDenied
deriving DecidableEq

/-- `module_detail` GET branch (views.py L750-784).  The parent-course
lookup (`module.course`) always succeeds under foreign-key integrity; the
`.http404` fallback of that inner match is unreachable on well-formed
states. -/
def module_detail_get (db : DB) (user : Option Caller) (mid : Nat) :
    ModuleDetailResult :=
  match db.modules.find? (fun m => m.id == mid) with
  | none => .http404
  | some m =>
    match db.courses.find? (fun c => c.id == m.courseId) with
    | none => .http404
    | some course =>
      if course.is_published && m.is_published then .ok m
      else
        match user with
        | none => .authRequired
        | some u =>
          if course.teacher == u.userId then .ok m
          else if (db.enrollments.any (fun e =>
                     e.student == u.userId && e.courseId == course.id &&
                     e.is_active)) && m.is_published then .ok m
          else .accessDenied

/-- Result of GET /modules/{id}/lessons/. -/
inductive ModuleLessonsResult
  | ok (ls : List Lesson)
  | http404
  | authRequired
  | accessDenied
deriving DecidableEq

/-- `module_lessons` GET branch (views.py L854-892): same access decision as
`module_detail`, returning the module's published lessons for non-owners and
all of its lessons for the owning teacher. -/
def module_lessons_get (db : DB) (user : Option Caller) (mid : Nat) :
    ModuleLessonsResult :=
  match db.modules.find? (fun m => m.id == mid) with
  | none => .http404
  | some m =>
    match db.courses.find? (fun c => c.id == m.courseId) with
    | none => .http404
    | some course =>
      if course.is_published && m.is_published then
        .ok (db.lessons.filter (fun l => l.moduleId == m.id && l.is_published))
      else
        match user with
        | none => .authRequired
        | some u =>
          if course.teacher == u.userId then
            .ok (db.lessons.filter (fun l => l.moduleId == m.id))
          else if (db.enrollments.any (fun e =>
                     e.student == u.userId && e.courseId == course.id &&
                     e.is_active)) && m.is_published then
            .ok (db.lessons.filter
                  (fun l => l.moduleId == m.id && l.is_published))
          else .accessDenied

/-- `lesson.module.course`: resolve a lesson's parent module and return the
module's course id. -/
def lessonCourseId (mods : List CourseModule) (l : Lesson) : Option Nat :=
  (mods.find? (fun m => m.id == l.moduleId)).map (fun m => m.courseId)

/-- Does this lesson belong (through its module) to course `cid`?
Mirrors the ORM join `module__course=...`. -/
def lessonInCourse (mods : List CourseModule) (cid : Nat) (l : Lesson) : Bool :=
  match mods.find? (fun m => m.id == l.moduleId) with
  | some m => m.courseId == cid
  | none => false

/-- `Lesson.objects.filter(module__course=c).count()` (views.py L1088-1089). -/
def totalLessons (lessons : List Lesson) (mods : List CourseModule)
    (cid : Nat) : Nat :=
  (lessons.filter (fun l => lessonInCourse mods cid l)).length

/-- `LessonProgress.objects.filter(student, lesson__module__course=c,
is_completed=True).count()` (views.py L1090-1094). -/
def completedCount (lps : List LessonProgress) (lessons : List Lesson)
    (mods : List CourseModule) (uid cid : Nat) : Nat :=
  (lps.filter (fun p => p.student == uid && p.is_completed &&
     (match lessons.find? (fun l => l.id == p.lessonId) with
      | some l => lessonInCourse mods cid l
      | none => false))).length

/-- Writing back an upserted LessonProgress row: replace the row holding the
(student, lesson) key, or insert it when absent (the `created` branch of
`get_or_create` followed by `save`). -/
def upsertProgress (lps : List LessonProgress) (p : LessonProgress) :
    List LessonProgress :=
  if lps.any (fun q => q.student == p.student && q.lessonId == p.lessonId) then
    lps.map (fun q =>
      if q.student == p.student && q.lessonId == p.lessonId then p else q)
  else lps ++ [p]

/-- Result of POST /lessons/{id}/progress/: on success the response body is
the serialized LessonProgress row. -/
inductive ProgressResult
  | notFound
  | notEnrolled
  | ok (p : LessonProgress)
deriving DecidableEq

/-- The fresh row `LessonProgress.objects.get_or_create` builds when no row
exists for (student, lesson): model defaults is_completed=False,
completion_percentage=0, time_spent_minutes=0, completed_at=NULL. -/
def defaultProgressRow (uid lessonId : Nat) : LessonProgress :=
  { student := uid, lessonId := lessonId, is_completed := false,
    completion_percentage := 0, time_spent_minutes := 0,
    completed_at := none }

/-- `LessonProgress.objects.get_or_create(student, lesson)`: the stored row,
or the fresh default one. -/
def storedProgress (db : DB) (uid lessonId : Nat) : LessonProgress :=
  (db.lessonProgress.find?
    (fun p => p.student == uid && p.lessonId == lessonId)).getD
    (defaultProgressRow uid lessonId)

/-- The row as `update_lesson_progress` saves it (views.py L1066-1079):
completion percentage overwritten when supplied, the time delta added, and
the completed flag/time set only on a false→true transition. -/
def newProgressRow (db : DB) (uid lessonId : Nat) (cpOpt : Option ℚ)
    (timeSpent : Int) (isCompleted : Bool) (now : Nat) : LessonProgress :=
  let progress0 := storedProgress db uid lessonId
  let progress1 :=
    { progress0 with
      completion_percentage := cpOpt.getD progress0.completion_percentage,
      time_spent_minutes := progress0.time_spent_minutes + timeSpent }
  if isCompleted && !progress0.is_completed then
    { progress1 with is_completed := true, completed_at := some now }
  else progress1

/-- The enrollment-table rewrite of views.py L1082-1102: when the course has
lessons, set the (student, course) enrollment's progress to
`(completed/total)*100` and, exactly when that value is 100, mark the
enrollment completed and stamp the time; with zero lessons nothing is
saved. -/
def recomputeEnrollments (db : DB) (uid cid : Nat)
    (lps' : List LessonProgress) (now : Nat) : List CourseEnrollment :=
  let total := totalLessons db.lessons db.modules cid
  if 0 < total then
    let newProg : ℚ :=
      ((completedCount lps' db.lessons db.modules uid cid : ℚ) /
        (total : ℚ)) * 100
    db.enrollments.map (fun e =>
      if e.student == uid && e.courseId == cid then
        { e with
          progress_percentage := newProg,
          status := if newProg = 100 then .completed else e.status,
          completed_at :=
            if newProg = 100 then some now else e.completed_at }
      else e)
  else db.enrollments

/-- `update_lesson_progress` (views.py L1046-1105).  Inputs: the caller's
user id (the permission class already requires authentication), the lesson
id, and the request body's `completion_percentage` (absent ⇒ the stored
value is kept), `time_spent_minutes` (absent ⇒ 0) and `is_completed`
(absent ⇒ False); `now` is `timezone.now()`.  The inner `.notFound`
fallback for a dangling module foreign key is unreachable on well-formed
states. -/
def update_lesson_progress (db : DB) (uid : Nat) (lessonId : Nat)
    (cpOpt : Option ℚ) (timeSpent : Int) (isCompleted : Bool) (now : Nat) :
    ProgressResult × DB :=
  match db.lessons.find? (fun l => l.id == lessonId) with
  | none => (.notFound, db)
  | some lesson =>
    match lessonCourseId db.modules lesson with
    | none => (.notFound, db)
    | some cid =>
      if db.enrollments.any (fun e =>
           e.student == uid && e.courseId == cid && e.is_active) then
        let progress2 := newProgressRow db uid lessonId cpOpt timeSpent
          isCompleted now
        let lps' := upsertProgress db.lessonProgress progress2
        (.ok progress2,
         { db with lessonProgress := lps',
                   enrollments := recomputeEnrollments db uid cid lps' now })
      else
        (.notEnrolled, db)

/-!  Review averages (apps/courses/serializers.py). -/

/-- A CourseReview row restricted to the fields the average reads. -/
structure Review where
  rating : Nat
  is_published : Bool
deriving DecidableEq

/-- `aggregate(average=Avg('rating'))`: `None` on an empty queryset, the
exact mean otherwise. -/
def avgAggregate (rs : List Nat) : Option ℚ :=
  if rs.isEmpty then none else some ((rs.sum : ℚ) / (rs.length : ℚ))

/-- Round-half-even of a rational to an integer (the semantics of Python's
builtin `round`). -/
def roundHalfEven (q : ℚ) : ℤ :=
  let f := ⌊q⌋
  let frac := q - (f : ℚ)
  if frac < 1/2 then f
  else if (1:ℚ)/2 < frac then f + 1
  else if f % 2 = 0 then f else f + 1

/-- Python's `round(x, 1)`: round to one decimal place, ties to even. -/
def roundTo1 (q : ℚ) : ℚ := ((roundHalfEven (q * 10) : ℚ)) / 10

/-- `CourseDetailSerializer.get_average_rating` (serializers.py L174-185):
average the ratings of the published reviews, round to one decimal place,
and fall back to 0.0 when the aggregate is NULL (no published reviews). -/
def get_average_rating (reviews : List Review) : ℚ :=
  match avgAggregate ((reviews.filter (fun r => r.is_published)).map
      (fun r => r.rating)) with
  | some avg => roundTo1 avg
  | none => 0

/-!  Password reset (apps/authentication). -/

/-- A user account as the reset flow sees it. -/
structure AuthUser where
  id : Nat
  password : String
deriving DecidableEq

/-- PasswordResetToken (apps/authentication/models.py): token values are
UUIDs, modelled as naturals; `created_at` is in minutes so the 1-hour TTL
is 60. -/
structure PRToken where
  user : Nat
  token : Nat
  created_at : Nat
  used : Bool
deriving DecidableEq

/-- `PasswordResetToken.is_expired`: `now > created_at + 1h`. -/
def PRToken.is_expired (t : PRToken) (now : Nat) : Bool :=
  t.created_at + 60 < now

/-- The identity-store slice the reset flow touches. -/
structure AuthDB where
  users : List AuthUser
  resetTokens : List PRToken
deriving DecidableEq

/-- Errors of POST /auth/reset-password.  `ResetPasswordSerializer` raises
'Invalid token' when `get(token=value, used=False)` finds no row — both for
unknown token values and for used ones — and 'Token has expired' when the
matching unused row is expired. -/
inductive ResetResult
  | invalidToken
  | tokenExpired
  | ok
deriving DecidableEq

/-- `reset_password` (authentication/views.py L227-245) composed with
`ResetPasswordSerializer.validate_token` (serializers_extra.py L27-34):
look up an unused row holding the token, reject if expired, otherwise set
the user's password and flip the row's `used` flag (the row is never
deleted). -/
def reset_password (db : AuthDB) (tokenVal : Nat) (newPw : String)
    (now : Nat) : ResetResult × AuthDB :=
  match db.resetTokens.find? (fun t => t.token == tokenVal && !t.used) with
  | none => (.invalidToken, db)
  | some t =>
    if t.is_expired now then (.tokenExpired, db)
    else
      (.ok,
       { db with
         users := db.users.map (fun u =>
           if u.id == t.user then { u with password := newPw } else u),
         resetTokens := db.resetTokens.map (fun t' =>
           if t'.token == tokenVal && !t'.used then
             { t' with used := true }
           else t') })

/-!  Shared helper lemmas. -/

/-- Reduction of `update_lesson_progress` on the success path: the lesson
resolves, its module resolves to course `cid`, and an active enrollment
exists. -/
theorem update_lesson_progress_eq (db : DB) (uid lessonId : Nat)
    (cpOpt : Option ℚ) (timeSpent : Int) (isCompleted : Bool) (now : Nat)
    (lesson : Lesson) (cid : Nat)
    (hl : db.lessons.find? (fun l => l.id == lessonId) = some lesson)
    (hc : lessonCourseId db.modules lesson = some cid)
    (he : db.enrollments.any (fun e =>
      e.student == uid && e.courseId == cid && e.is_active) = true) :
    update_lesson_progress db uid lessonId cpOpt timeSpent isCompleted now =
      (.ok (newProgressRow db uid lessonId cpOpt timeSpent isCompleted now),
       { db with
         lessonProgress := upsertProgress db.lessonProgress
           (newProgressRow db uid lessonId cpOpt timeSpent isCompleted now),
         enrollments := recomputeEnrollments db uid cid
           (upsertProgress db.lessonProgress
             (newProgressRow db uid lessonId cpOpt timeSpent isCompleted now))
           now }) := by
  simp only [update_lesson_progress, hl, hc, he, if_true]

/-- C9 concrete state: one unpublished course. -/
def dbC9 : DB :=
  { courses := [{ id := 1, title := "Hidden", slug := "hidden",
                  teacher := 2, is_published := false,
                  max_students := none }],
    modules := [], lessons := [],
    enrollments := [], lessonProgress := [] }

/-- C9: the enroll endpoint looks the course up with `is_published=True`,
so on a course whose rows are all unpublished every authenticated caller —
whatever their role, enrollment history or the course's capacity — gets
NotFound and the store is unchanged. -/
theorem C9_enroll_requires_published (db : DB) (cid : Nat)
    (hex : ∃ c ∈ db.courses, c.id = cid)
    (hunpub : ∀ c ∈ db.courses, c.id = cid → c.is_published = false) :
    ∀ u : Caller, enroll_course db (some u) cid = (.notFound, db) := by
  intro u
  have hnone : db.courses.find? (fun c => c.id == cid && c.is_published)
      = none := by
    refine List.find?_eq_none.mpr ?_
    intro c hc
    simp only [Bool.and_eq_true, beq_iff_eq, not_and]
    intro hid
    simp [hunpub c hc hid]
  unfold enroll_course
  rw [hnone]

/-- C9 witness: a student tries to enroll in the concrete unpublished
course. -/
theorem C9_enroll_requires_published_witness :
    enroll_course dbC9 (some { userId := 7, role := some .student }) 1 =
      (.notFound, dbC9) := by
  have h := C9_enroll_requires_published dbC9 1
    (by simp [dbC9]) (by simp [dbC9])
  exact h { userId := 7, role := some .student }

/-- C10: `course_detail` resolves the path parameter against the `title`
column: when no course's title equals the parameter the endpoint 404s even
if the parameter is exactly some course's stored slug, while the course's
title does resolve. -/
theorem C10_course_detail_title_lookup (db : DB) (user : Option Caller)
    (course : Course) (s : String)
    (hmem : course ∈ db.courses) (hslug : course.slug = s)
    (htitle : ∀ c ∈ db.courses, c.title ≠ s) :
    course_detail_get db user s = .http404 ∧
    course_detail_get db user course.title ≠ .http404 := by
  constructor
  · have hnone : db.courses.find? (fun c => c.title == s) = none := by
      refine List.find?_eq_none.mpr ?_
      intro c hc
      simp [htitle c hc]
    unfold course_detail_get
    rw [hnone]
  · cases hfind : db.courses.find? (fun c => c.title == course.title) with
    | none =>
      rw [List.find?_eq_none] at hfind
      exact absurd (by simp : (course.title == course.title) = true)
        (hfind course hmem)
    | some c =>
      unfold course_detail_get
      rw [hfind]
      cases hp : c.is_published with
      | true => simp [hp]
      | false =>
        cases user with
        | none => simp [hp]
        | some u =>
          by_cases ht : c.teacher == u.userId <;> simp [hp, ht]

/-- C10 witness: a course titled "Intro to Python" with slug
"intro-to-python": the slug 404s, the title resolves. -/
theorem C10_course_detail_title_lookup_witness :
    course_detail_get
        { courses := [{ id := 1, title := "Intro to Python",
                        slug := "intro-to-python", teacher := 2,
                        is_published := true, max_students := none }],
          modules := [], lessons := [], enrollments := [],
          lessonProgress := [] } none "intro-to-python" = .http404 ∧
    course_detail_get
        { courses := [{ id := 1, title := "Intro to Python",
                        slug := "intro-to-python", teacher := 2,
                        is_published := true, max_students := none }],
          modules := [], lessons := [], enrollments := [],
          lessonProgress := [] } none "Intro to Python" ≠ .http404 := by
  exact C10_course_detail_title_lookup _ none
    { id := 1, title := "Intro to Python", slug := "intro-to-python",
      teacher := 2, is_published := true, max_students := none }
    "intro-to-python" (by simp) rfl (by simp)

/-- C6: an unpublished course's detail read returns 404 with the
'Course not found' body — never a 403 — both for anonymous callers and for
any authenticated caller other than the owning teacher. -/
theorem C6_unpublished_course_hidden (db : DB) (user : Option Caller)
    (course : Course) (s : String)
    (hfind : db.courses.find? (fun c => c.title == s) = some course)
    (hunpub : course.is_published = false)
    (hnotowner : ∀ u, user = some u → u.userId ≠ course.teacher) :
    course_detail_get db user s = .courseNotFound ∧
    (course_detail_get db user s).statusCode = 404 := by
  have hres : course_detail_get db user s = .courseNotFound := by
    unfold course_detail_get
    rw [hfind]
    cases user with
    | none => simp [hunpub]
    | some u =>
      have : (course.teacher == u.userId) = false := by
        simp
        exact fun h => (hnotowner u rfl) h.symm
      simp [hunpub, this]
  exact ⟨hres, by rw [hres]; rfl⟩

/-- C6 witness: anonymous read of the concrete unpublished course. -/
theorem C6_unpublished_course_hidden_witness :
    course_detail_get dbC9 none "Hidden" = .courseNotFound ∧
    (course_detail_get dbC9 none "Hidden").statusCode = 404 := by
  exact C6_unpublished_course_hidden dbC9 none
    { id := 1, title := "Hidden", slug := "hidden", teacher := 2,
      is_published := false, max_students := none } "Hidden"
    (by rfl) rfl (by simp)

/-- C4 helper: Boolean form of "the caller is not the owning teacher". -/
theorem teacher_beq_false {course : Course} {u : Caller}
    (h : course.teacher ≠ u.userId) : (course.teacher == u.userId) = false := by
  simp [h]

/-- C4: for an authenticated caller who holds an active enrollment in the
course and is not its owning teacher, reading a module — or its lesson
list — succeeds exactly when the module's own publish flag is set; the
parent course's publish flag is free in the statement, so the decision is
independent of it. -/
theorem C4_enrolled_visibility (db : DB) (u : Caller) (mid : Nat)
    (m : CourseModule) (course : Course)
    (hm : db.modules.find? (fun x => x.id == mid) = some m)
    (hcourse : db.courses.find? (fun c => c.id == m.courseId) = some course)
    (hteach : course.teacher ≠ u.userId)
    (henr : db.enrollments.any (fun e => e.student == u.userId &&
      e.courseId == course.id && e.is_active) = true) :
    (module_detail_get db (some u) mid = .ok m ↔ m.is_published = true) ∧
    ((∃ ls, module_lessons_get db (some u) mid = .ok ls) ↔
      m.is_published = true) := by
  have hb := teacher_beq_false hteach
  cases hp : m.is_published with
  | true =>
    constructor
    · constructor
      · intro _; rfl
      · intro _
        cases hcp : course.is_published with
        | true => simp [module_detail_get, hm, hcourse, hp, hcp]
        | false =>
          simp [module_detail_get, hm, hcourse, hp, hcp, hb, henr]
    · constructor
      · intro _; rfl
      · intro _
        cases hcp : course.is_published with
        | true =>
          exact ⟨db.lessons.filter (fun l => l.moduleId == m.id &&
            l.is_published), by
              simp [module_lessons_get, hm, hcourse, hp, hcp]⟩
        | false =>
          exact ⟨db.lessons.filter (fun l => l.moduleId == m.id &&
            l.is_published), by
              simp [module_lessons_get, hm, hcourse, hp, hcp, hb, henr]⟩
  | false =>
    constructor
    · constructor
      · intro hok
        exfalso
        simp [module_detail_get, hm, hcourse, hp, hb, henr] at hok
      · intro h; exact absurd h (by simp [hp])
    · constructor
      · intro ⟨ls, hok⟩
        exfalso
        simp [module_lessons_get, hm, hcourse, hp, hb, henr] at hok
      · intro h; exact absurd h (by simp [hp])

/-- C4 witness state: an unpublished course owned by teacher 2 with one
published module, and student 7 actively enrolled. -/
def dbC4 : DB :=
  { courses := [{ id := 1, title := "C", slug := "c", teacher := 2,
                  is_published := false, max_students := none }],
    modules := [{ id := 10, courseId := 1, is_published := true }],
    lessons := [{ id := 100, moduleId := 10, is_published := true }],
    enrollments := [{ student := 7, courseId := 1, status := .enrolled,
                      is_active := true, progress_percentage := 0,
                      completed_at := none }],
    lessonProgress := [] }

/-- C4 witness: the enrolled student reads the published module of the
now-unpublished course and succeeds. -/
theorem C4_enrolled_visibility_witness :
    (module_detail_get dbC4 (some { userId := 7, role := some .student }) 10
        = .ok { id := 10, courseId := 1, is_published := true } ↔
      ({ id := 10, courseId := 1,
         is_published := true } : CourseModule).is_published = true) ∧
    ((∃ ls, module_lessons_get dbC4
        (some { userId := 7, role := some .student }) 10 = .ok ls) ↔
      ({ id := 10, courseId := 1,
         is_published := true } : CourseModule).is_published = true) := by
  exact C4_enrolled_visibility dbC4 { userId := 7, role := some .student } 10
    { id := 10, courseId := 1, is_published := true }
    { id := 1, title := "C", slug := "c", teacher := 2,
      is_published := false, max_students := none }
    (by rfl) (by rfl) (by decide) (by rfl)

/-- `Course.is_full` unfolded into the spec's terms: the cap is set to a
positive value and the active-enrollment count has reached it. -/
theorem is_full_iff (db : DB) (c : Course) :
    c.is_full db = true ↔
      ∃ m, c.max_students = some m ∧ 0 < m ∧
        m ≤ activeEnrollCount db c.id := by
  unfold Course.is_full
  cases hms : c.max_students with
  | none => simp
  | some m =>
    cases m with
    | zero => simp
    | succ k =>
      simp only [ge_iff_le, decide_eq_true_eq, Option.some.injEq]
      constructor
      · intro h; exact ⟨k + 1, rfl, Nat.succ_pos k, h⟩
      · rintro ⟨m', hm', _, hle⟩; cases hm'; exact hle

/-- C3 (amended): for a published course found by the enroll endpoint, the
checks run in order — non-students are rejected, then any pre-existing
(student, course) row (active or not) is a conflict, then a reached
positive capacity rejects, and otherwise exactly one new enrollment row is
appended with status 'enrolled', the active flag set and progress 0.  A cap
of 0 behaves like no cap at all (Python truthiness of `max_students`). -/
theorem C3_enroll_checks (db : DB) (u : Caller) (cid : Nat) (course : Course)
    (hfind : db.courses.find? (fun c => c.id == cid && c.is_published)
      = some course) :
    (is_student u = false →
      enroll_course db (some u) cid = (.notAStudent, db)) ∧
    (is_student u = true →
      (db.enrollments.any (fun e =>
          e.student == u.userId && e.courseId == cid) = true →
        enroll_course db (some u) cid = (.alreadyEnrolled, db)) ∧
      (db.enrollments.any (fun e =>
          e.student == u.userId && e.courseId == cid) = false →
        ((∃ m, course.max_students = some m ∧ 0 < m ∧
            m ≤ activeEnrollCount db cid) →
          enroll_course db (some u) cid = (.courseFull, db)) ∧
        ((∀ m, course.max_students = some m → 0 < m →
            activeEnrollCount db cid < m) →
          enroll_course db (some u) cid =
            (.created,
             { db with enrollments := db.enrollments ++
                 [{ student := u.userId, courseId := cid,
                    status := .enrolled, is_active := true,
                    progress_percentage := 0,
                    completed_at := none }] })))) := by
  have hid : course.id = cid := by
    have := List.find?_some hfind
    simp only [Bool.and_eq_true, beq_iff_eq] at this
    exact this.1
  refine ⟨?_, ?_⟩
  · intro hns
    simp [enroll_course, hfind, hns]
  · intro hs
    refine ⟨?_, ?_⟩
    · intro hdup
      simp [enroll_course, hfind, hs, hdup]
    · intro hnodup
      constructor
      · intro hfull
        have hf : course.is_full db = true := by
          rw [is_full_iff, hid]; exact hfull
        simp [enroll_course, hfind, hs, hnodup, hf]
      · intro hnotfull
        have hf : course.is_full db = false := by
          rw [Bool.eq_false_iff]
          intro hc
          rw [is_full_iff, hid] at hc
          obtain ⟨m, hm, hpos, hle⟩ := hc
          exact absurd hle (Nat.not_le.mpr (hnotfull m hm hpos))
        simp [enroll_course, hfind, hs, hnodup, hf]

/-- C3 witness state: a published course with room (cap 3), one inactive
prior enrollee. -/
def dbC3 : DB :=
  { courses := [{ id := 1, title := "C", slug := "c", teacher := 2,
                  is_published := true, max_students := some 3 }],
    modules := [], lessons := [],
    enrollments := [{ student := 9, courseId := 1, status := .dropped,
                      is_active := false, progress_percentage := 0,
                      completed_at := none }],
    lessonProgress := [] }

/-- C3 witness: the fresh student enrolls; the dropped student who still
has a row is rejected with the conflict error. -/
theorem C3_enroll_checks_witness :
    (enroll_course dbC3 (some { userId := 7, role := some .student }) 1 =
      (.created,
       { dbC3 with enrollments := dbC3.enrollments ++
           [{ student := 7, courseId := 1, status := .enrolled,
              is_active := true, progress_percentage := 0,
              completed_at := none }] })) ∧
    (enroll_course dbC3 (some { userId := 9, role := some .student }) 1 =
      (.alreadyEnrolled, dbC3)) := by
  constructor
  · exact (((C3_enroll_checks dbC3 { userId := 7, role := some .student } 1
      { id := 1, title := "C", slug := "c", teacher := 2,
        is_published := true, max_students := some 3 }
      (by rfl)).2 (by rfl)).2 (by rfl)).2
      (by intro m hm _; cases hm; decide)
  · exact ((C3_enroll_checks dbC3 { userId := 9, role := some .student } 1
      { id := 1, title := "C", slug := "c", teacher := 2,
        is_published := true, max_students := some 3 }
      (by rfl)).2 (by rfl)).1 (by rfl)

/-- C3 state with `max_students = 0`: the cap is set and the active count
(0) already reaches it. -/
def dbC3zero : DB :=
  { courses := [{ id := 1, title := "Z", slug := "z", teacher := 2,
                  is_published := true, max_students := some 0 }],
    modules := [], lessons := [], enrollments := [], lessonProgress := [] }

/-- C3 counterexample: with `max_students` set to 0 the claim's CourseFull
condition holds (0 active enrollments ≥ cap 0), yet the code enrolls the
student: `if self.max_students:` is false for 0, so `is_full` is False. -/
theorem C3_max_students_zero_counterexample :
    (dbC3zero.courses.map (fun c => c.max_students)) = [some 0] ∧
    activeEnrollCount dbC3zero 1 ≥ 0 ∧
    (enroll_course dbC3zero
        (some { userId := 7, role := some .student }) 1).1 = .created ∧
    (enroll_course dbC3zero
        (some { userId := 7, role := some .student }) 1).1 ≠
      .courseFull := by
  refine ⟨by rfl, by decide, by rfl, by decide⟩

/-- C8: the serializer's course average is the arithmetic mean of the
published reviews' ratings rounded to one decimal place, and 0 when there
are no published reviews; in particular ratings [3,4,5] average to 4.0 and
an empty review set to 0.0. -/
theorem C8_average_rating (reviews : List Review) :
    get_average_rating reviews =
      (if ((reviews.filter (fun r => r.is_published)).map
            (fun r => r.rating)) = [] then 0
       else roundTo1
         ((((reviews.filter (fun r => r.is_published)).map
              (fun r => r.rating)).sum : ℚ) /
          (((reviews.filter (fun r => r.is_published)).map
              (fun r => r.rating)).length : ℚ))) ∧
    get_average_rating
      [{ rating := 3, is_published := true },
       { rating := 4, is_published := true },
       { rating := 5, is_published := true }] = 4 ∧
    get_average_rating [] = 0 := by
  refine ⟨?_, ?_, by rfl⟩
  · by_cases h : (reviews.filter (fun r => r.is_published)).map
        (fun r => r.rating) = []
    · simp [get_average_rating, avgAggregate, h]
    · simp [get_average_rating, avgAggregate, h, Function.comp_def]
  · norm_num [get_average_rating, avgAggregate, roundTo1, roundHalfEven,
      List.filter, List.map]

/-- Reduction of `reset_password` when no unused row holds the token. -/
theorem reset_password_invalid (db : AuthDB) (v : Nat) (pw : String)
    (now : Nat)
    (h : db.resetTokens.find? (fun x => x.token == v && !x.used) = none) :
    reset_password db v pw now = (.invalidToken, db) := by
  unfold reset_password
  rw [h]

/-- Reduction of `reset_password` when the matching unused row is
expired. -/
theorem reset_password_expired (db : AuthDB) (v : Nat) (pw : String)
    (now : Nat) (t : PRToken)
    (h : db.resetTokens.find? (fun x => x.token == v && !x.used) = some t)
    (hex : t.is_expired now = true) :
    reset_password db v pw now = (.tokenExpired, db) := by
  unfold reset_password
  rw [h]
  simp [hex]

/-- C5 (amended): a matching unused unexpired reset token validates exactly
once — the call succeeds, stores the new password, flips the token's used
flag and keeps the row — and a second call with the same token, a call with
an unknown token, and a call whose matching unused token is expired fail
with 'Invalid token', 'Invalid token' and 'Token has expired' respectively.
A used token is indistinguishable from an unknown one: both yield
'Invalid token'. -/
theorem C5_reset_token_single_use (db : AuthDB) (t : PRToken) (v : Nat)
    (pw pw2 : String) (now now2 : Nat)
    (hfind : db.resetTokens.find? (fun x => x.token == v && !x.used)
      = some t)
    (hfresh : t.is_expired now = false) :
    (reset_password db v pw now).1 = .ok ∧
    (∀ u ∈ (reset_password db v pw now).2.users,
      u.id = t.user → u.password = pw) ∧
    (∀ x ∈ (reset_password db v pw now).2.resetTokens,
      x.token = v → x.used = true) ∧
    (reset_password db v pw now).2.resetTokens.length =
      db.resetTokens.length ∧
    (reset_password (reset_password db v pw now).2 v pw2 now2 =
      (.invalidToken, (reset_password db v pw now).2)) ∧
    (∀ v2 pw3 now3, (∀ x ∈ db.resetTokens, x.token ≠ v2) →
      (reset_password db v2 pw3 now3).1 = .invalidToken) ∧
    (∀ v2 t2 pw3 now3,
      db.resetTokens.find? (fun x => x.token == v2 && !x.used) = some t2 →
      t2.is_expired now3 = true →
      (reset_password db v2 pw3 now3).1 = .tokenExpired) := by
  have hrun : reset_password db v pw now =
      (.ok,
       { db with
         users := db.users.map (fun u =>
           if u.id == t.user then { u with password := pw } else u),
         resetTokens := db.resetTokens.map (fun x =>
           if x.token == v && !x.used then { x with used := true }
           else x) }) := by
    simp [reset_password, hfind, hfresh]
  refine ⟨by rw [hrun], ?_, ?_, ?_, ?_, ?_, ?_⟩
  · rw [hrun]
    intro u hu hid
    obtain ⟨u0, hu0, rfl⟩ := List.mem_map.mp hu
    by_cases hmatch : (u0.id == t.user) = true
    · simp [hmatch]
    · rw [if_neg (by simp [hmatch])] at hid ⊢
      exact absurd hid (by simpa using hmatch)
  · rw [hrun]
    intro x hx htok
    obtain ⟨x0, hx0, rfl⟩ := List.mem_map.mp hx
    by_cases hmatch : (x0.token == v && !x0.used) = true
    · simp [hmatch]
    · rw [if_neg (by simp [hmatch])] at htok ⊢
      simp only [Bool.and_eq_true, beq_iff_eq, Bool.not_eq_eq_eq_not,
        Bool.not_true, not_and] at hmatch
      have := hmatch htok
      simpa using this
  · rw [hrun]
    simp
  · rw [hrun]
    have hnone : (db.resetTokens.map (fun x =>
        if x.token == v && !x.used then { x with used := true }
        else x)).find? (fun x => x.token == v && !x.used) = none := by
      refine List.find?_eq_none.mpr ?_
      intro x hx
      obtain ⟨x0, hx0, rfl⟩ := List.mem_map.mp hx
      by_cases hmatch : (x0.token == v && !x0.used) = true
      · simp [hmatch]
      · rw [if_neg (by simp [hmatch])]
        simp only [Bool.and_eq_true, not_and] at hmatch ⊢
        exact hmatch
    exact reset_password_invalid _ v pw2 now2 hnone
  · intro v2 pw3 now3 hmiss
    have hnone : db.resetTokens.find? (fun x => x.token == v2 && !x.used)
        = none := by
      refine List.find?_eq_none.mpr ?_
      intro x hx
      simp [hmiss x hx]
    rw [reset_password_invalid db v2 pw3 now3 hnone]
  · intro v2 t2 pw3 now3 hf2 hex2
    rw [reset_password_expired db v2 pw3 now3 t2 hf2 hex2]

/-- C5 witness state: user 1 with an unused fresh token 42 created at
minute 0. -/
def authDbC5 : AuthDB :=
  { users := [{ id := 1, password := "old" }],
    resetTokens := [{ user := 1, token := 42, created_at := 0,
                      used := false }] }

/-- C5 witness: resetting with token 42 at minute 30 succeeds and flips the
flag; the retry at minute 40 gets 'Invalid token'. -/
theorem C5_reset_token_single_use_witness :
    (reset_password authDbC5 42 "new" 30).1 = .ok ∧
    (∀ u ∈ (reset_password authDbC5 42 "new" 30).2.users,
      u.id = 1 → u.password = "new") ∧
    (∀ x ∈ (reset_password authDbC5 42 "new" 30).2.resetTokens,
      x.token = 42 → x.used = true) ∧
    reset_password (reset_password authDbC5 42 "new" 30).2 42 "again" 40 =
      (.invalidToken, (reset_password authDbC5 42 "new" 30).2) := by
  have h := C5_reset_token_single_use authDbC5
    { user := 1, token := 42, created_at := 0, used := false }
    42 "new" "again" 30 40 (by rfl) (by decide)
  exact ⟨h.1, h.2.1, h.2.2.1, h.2.2.2.2.1⟩

/-- C5 counterexample state: the only row for token 42 is already used and
far from expiry. -/
def authDbC5x : AuthDB :=
  { users := [{ id := 1, password := "old" }],
    resetTokens := [{ user := 1, token := 42, created_at := 0,
                      used := true }] }

/-- C5 counterexample: a used, unexpired token does not produce a distinct
TokenAlreadyUsed error — the endpoint answers exactly the 'Invalid token'
outcome it gives for a token matching no row at all. -/
theorem C5_used_token_error_counterexample :
    authDbC5x.resetTokens.map (fun x => x.used) = [true] ∧
    PRToken.is_expired
      { user := 1, token := 42, created_at := 0, used := true } 10 =
      false ∧
    (reset_password authDbC5x 42 "npw" 10).1 = .invalidToken ∧
    (reset_password authDbC5x 99 "npw" 10).1 = .invalidToken := by
  refine ⟨by rfl, by decide, by rfl, by rfl⟩

/-- C1 (amended): after a successful progress update on a course with
N > 0 lessons, the enrollment's stored progress is exactly (k/N)·100 —
the unrounded ratio, not round(k/N·100) — where k counts the student's
completed lessons of the course; for an enrollment that was not already
completed the stored value is 100 exactly when the status becomes
'completed', and then the completion time is stamped; and with zero
lessons the enrollment table is untouched. -/
theorem C1_progress_aggregation (db : DB) (uid lessonId : Nat)
    (cpOpt : Option ℚ) (timeSpent : Int) (isCompleted : Bool) (now : Nat)
    (lesson : Lesson) (cid : Nat)
    (hl : db.lessons.find? (fun l => l.id == lessonId) = some lesson)
    (hc : lessonCourseId db.modules lesson = some cid)
    (he : db.enrollments.any (fun e =>
      e.student == uid && e.courseId == cid && e.is_active) = true)
    (hst : ∀ e ∈ db.enrollments, e.student = uid → e.courseId = cid →
      e.status ≠ .completed) :
    (0 < totalLessons db.lessons db.modules cid →
      ∀ e' ∈ (update_lesson_progress db uid lessonId cpOpt timeSpent
          isCompleted now).2.enrollments,
        e'.student = uid → e'.courseId = cid →
          e'.progress_percentage =
            ((completedCount (update_lesson_progress db uid lessonId cpOpt
                timeSpent isCompleted now).2.lessonProgress db.lessons
                db.modules uid cid : ℚ) /
              (totalLessons db.lessons db.modules cid : ℚ)) * 100 ∧
          (e'.progress_percentage = 100 ↔ e'.status = .completed) ∧
          (e'.status = .completed → e'.completed_at = some now)) ∧
    (totalLessons db.lessons db.modules cid = 0 →
      (update_lesson_progress db uid lessonId cpOpt timeSpent
        isCompleted now).2.enrollments = db.enrollments) := by
  rw [update_lesson_progress_eq db uid lessonId cpOpt timeSpent isCompleted
    now lesson cid hl hc he]
  constructor
  · intro hN e' he' hstud hcrs
    simp only at he'
    unfold recomputeEnrollments at he'
    rw [if_pos hN] at he'
    obtain ⟨e, hmem, rfl⟩ := List.mem_map.mp he'
    by_cases hmatch : (e.student == uid && e.courseId == cid) = true
    · rw [if_pos hmatch]
      rw [if_pos hmatch] at hstud hcrs
      simp only [Bool.and_eq_true, beq_iff_eq] at hmatch
      have hstat : e.status ≠ .completed := hst e hmem hmatch.1 hmatch.2
      by_cases h100 :
          ((completedCount (upsertProgress db.lessonProgress
              (newProgressRow db uid lessonId cpOpt timeSpent isCompleted
                now)) db.lessons db.modules uid cid : ℚ) /
            (totalLessons db.lessons db.modules cid : ℚ)) * 100 = 100
      · simp [h100]
      · simp [h100, hstat]
    · rw [if_neg hmatch] at hstud hcrs
      exact absurd (by simp [hstud, hcrs]) hmatch
  · intro h0
    simp only
    unfold recomputeEnrollments
    rw [if_neg (by simp [h0])]

/-- C1 concrete state: a published course with one module holding three
lessons, student 7 actively enrolled with no progress yet. -/
def dbC1 : DB :=
  { courses := [{ id := 1, title := "T", slug := "t", teacher := 2,
                  is_published := true, max_students := none }],
    modules := [{ id := 10, courseId := 1, is_published := true }],
    lessons := [{ id := 100, moduleId := 10, is_published := true },
                { id := 101, moduleId := 10, is_published := true },
                { id := 102, moduleId := 10, is_published := true }],
    enrollments := [{ student := 7, courseId := 1, status := .enrolled,
                      is_active := true, progress_percentage := 0,
                      completed_at := none }],
    lessonProgress := [] }

/-- C1 counterexample: completing 1 of 3 lessons stores progress 100/3
(= 33.333…), while the claim's round(k/N·100) is the integer 33 — the code
does not round. -/
theorem C1_round_counterexample :
    ((update_lesson_progress dbC1 7 100 none 0 true 5).2.enrollments.map
      (fun e => e.progress_percentage)) = [100/3] ∧
    completedCount
      (update_lesson_progress dbC1 7 100 none 0 true 5).2.lessonProgress
      dbC1.lessons dbC1.modules 7 1 = 1 ∧
    totalLessons dbC1.lessons dbC1.modules 1 = 3 ∧
    ((100 : ℚ)/3) ≠ ((round (((1 : ℚ)/3) * 100) : ℤ) : ℚ) := by
  refine ⟨?_, ?_, by decide, ?_⟩
  · norm_num [dbC1, update_lesson_progress, lessonCourseId, lessonInCourse,
      upsertProgress, newProgressRow, storedProgress, defaultProgressRow,
      recomputeEnrollments, totalLessons, completedCount, List.find?,
      List.filter, List.any]
  · norm_num [dbC1, update_lesson_progress, lessonCourseId, lessonInCourse,
      upsertProgress, newProgressRow, storedProgress, defaultProgressRow,
      recomputeEnrollments, totalLessons, completedCount, List.find?,
      List.filter, List.any]
  · have : (round (((1 : ℚ)/3) * 100) : ℤ) = 33 := by
      norm_num [round_eq]
    rw [this]
    norm_num

/-- C1 witness: the amended aggregation statement instantiated on the
3-lesson course after completing one lesson. -/
theorem C1_progress_aggregation_witness :
    0 < totalLessons dbC1.lessons dbC1.modules 1 ∧
    ∀ e' ∈ (update_lesson_progress dbC1 7 100 none 0 true 5).2.enrollments,
      e'.student = 7 → e'.courseId = 1 →
        e'.progress_percentage =
          ((completedCount
              (update_lesson_progress dbC1 7 100 none 0 true
                5).2.lessonProgress dbC1.lessons dbC1.modules 7 1 : ℚ) /
            (totalLessons dbC1.lessons dbC1.modules 1 : ℚ)) * 100 ∧
        (e'.progress_percentage = 100 ↔ e'.status = .completed) ∧
        (e'.status = .completed → e'.completed_at = some 5) := by
  refine ⟨by decide, ?_⟩
  exact (C1_progress_aggregation dbC1 7 100 none 0 true 5
    { id := 100, moduleId := 10, is_published := true } 1
    (by rfl) (by rfl) (by rfl) (by decide)).1 (by decide)

/-- The get_or_create key: the stored (or fresh) row carries the request's
student and lesson ids. -/
theorem storedProgress_key (db : DB) (uid lessonId : Nat) :
    (storedProgress db uid lessonId).student = uid ∧
    (storedProgress db uid lessonId).lessonId = lessonId := by
  unfold storedProgress
  cases hf : db.lessonProgress.find?
      (fun p => p.student == uid && p.lessonId == lessonId) with
  | none => simp [defaultProgressRow]
  | some p =>
    have hp := List.find?_some hf
    simp only [Bool.and_eq_true, beq_iff_eq] at hp
    simp [hp.1, hp.2]

/-- C2 (amended): a successful progress update upserts the (student,
lesson) row: the completion percentage becomes the supplied value when one
is supplied (no monotonicity — it may decrease), the supplied delta is
added to the time accumulator — which therefore never decreases across
calls whose deltas are non-negative, the only deltas the spec intends —
and the completed flag is set with its timestamp only on a false→true
transition, so re-sending completed=true changes nothing. -/
theorem C2_lesson_progress_upsert (db : DB) (uid lessonId : Nat)
    (cpOpt : Option ℚ) (timeSpent : Int) (isCompleted : Bool) (now : Nat)
    (lesson : Lesson) (cid : Nat)
    (hl : db.lessons.find? (fun l => l.id == lessonId) = some lesson)
    (hc : lessonCourseId db.modules lesson = some cid)
    (he : db.enrollments.any (fun e =>
      e.student == uid && e.courseId == cid && e.is_active) = true) :
    ∃ p',
      (update_lesson_progress db uid lessonId cpOpt timeSpent isCompleted
        now).1 = .ok p' ∧
      (update_lesson_progress db uid lessonId cpOpt timeSpent isCompleted
        now).2.lessonProgress = upsertProgress db.lessonProgress p' ∧
      p'.student = uid ∧ p'.lessonId = lessonId ∧
      p'.completion_percentage =
        cpOpt.getD (storedProgress db uid lessonId).completion_percentage ∧
      p'.time_spent_minutes =
        (storedProgress db uid lessonId).time_spent_minutes + timeSpent ∧
      (0 ≤ timeSpent →
        (storedProgress db uid lessonId).time_spent_minutes ≤
          p'.time_spent_minutes) ∧
      (isCompleted = true → p'.is_completed = true) ∧
      (isCompleted = true →
        (storedProgress db uid lessonId).is_completed = false →
        p'.completed_at = some now) ∧
      ((storedProgress db uid lessonId).is_completed = true →
        p'.is_completed = true ∧
        p'.completed_at = (storedProgress db uid lessonId).completed_at) ∧
      (isCompleted = false →
        p'.is_completed = (storedProgress db uid lessonId).is_completed ∧
        p'.completed_at = (storedProgress db uid lessonId).completed_at) := by
  rw [update_lesson_progress_eq db uid lessonId cpOpt timeSpent isCompleted
    now lesson cid hl hc he]
  refine ⟨newProgressRow db uid lessonId cpOpt timeSpent isCompleted now,
    rfl, rfl, ?_⟩
  have hkey := storedProgress_key db uid lessonId
  cases hoc : (storedProgress db uid lessonId).is_completed <;>
    cases hic : isCompleted <;>
      simp [newProgressRow, hoc, hic, hkey.1, hkey.2,
        le_add_iff_nonneg_right]

/-- C2 concrete state: student 7 enrolled, with an existing progress row on
lesson 100 holding 10 accumulated minutes. -/
def dbC2 : DB :=
  { courses := [{ id := 1, title := "T", slug := "t", teacher := 2,
                  is_published := true, max_students := none }],
    modules := [{ id := 10, courseId := 1, is_published := true }],
    lessons := [{ id := 100, moduleId := 10, is_published := true }],
    enrollments := [{ student := 7, courseId := 1, status := .enrolled,
                      is_active := true, progress_percentage := 0,
                      completed_at := none }],
    lessonProgress := [{ student := 7, lessonId := 100,
                         is_completed := false,
                         completion_percentage := 50,
                         time_spent_minutes := 10,
                         completed_at := none }] }

/-- C2 counterexample: the view happily adds a negative
`time_spent_minutes` delta, so the accumulator drops from 10 to 5 —
"never decreases across calls" fails without restricting deltas to be
non-negative. -/
theorem C2_time_spent_counterexample :
    dbC2.lessonProgress.map (fun p => p.time_spent_minutes) = [10] ∧
    ((update_lesson_progress dbC2 7 100 none (-5) false 9).2.lessonProgress.map
      (fun p => p.time_spent_minutes)) = [5] ∧
    (5 : Int) < 10 := by
  refine ⟨by rfl, ?_, by decide⟩
  norm_num [dbC2, update_lesson_progress, lessonCourseId, lessonInCourse,
    upsertProgress, newProgressRow, storedProgress, defaultProgressRow,
    recomputeEnrollments, totalLessons, completedCount, List.find?,
    List.filter, List.any]

/-- C2 witness: the upsert statement instantiated on the concrete state,
with a positive delta and the completed flag. -/
theorem C2_lesson_progress_upsert_witness :
    ∃ p',
      (update_lesson_progress dbC2 7 100 (some 80) 4 true 9).1 = .ok p' ∧
      (update_lesson_progress dbC2 7 100 (some 80) 4 true
        9).2.lessonProgress = upsertProgress dbC2.lessonProgress p' ∧
      p'.student = 7 ∧ p'.lessonId = 100 ∧
      p'.completion_percentage =
        (some (80 : ℚ)).getD
          (storedProgress dbC2 7 100).completion_percentage ∧
      p'.time_spent_minutes =
        (storedProgress dbC2 7 100).time_spent_minutes + 4 ∧
      (0 ≤ (4 : Int) →
        (storedProgress dbC2 7 100).time_spent_minutes ≤
          p'.time_spent_minutes) ∧
      (true = true → p'.is_completed = true) ∧
      (true = true → (storedProgress dbC2 7 100).is_completed = false →
        p'.completed_at = some 9) ∧
      ((storedProgress dbC2 7 100).is_completed = true →
        p'.is_completed = true ∧
        p'.completed_at = (storedProgress dbC2 7 100).completed_at) ∧
      (true = false →
        p'.is_completed = (storedProgress dbC2 7 100).is_completed ∧
        p'.completed_at = (storedProgress dbC2 7 100).completed_at) := by
  exact C2_lesson_progress_upsert dbC2 7 100 (some 80) 4 true 9
    { id := 100, moduleId := 10, is_published := true } 1
    (by rfl) (by rfl) (by rfl)

/-- Invariant C7 checks: every enrollment row's progress lies in [0,100]. -/
def progressInRange (db : DB) : Prop :=
  ∀ e ∈ db.enrollments,
    0 ≤ e.progress_percentage ∧ e.progress_percentage ≤ 100

/-- Upserting a row keeps the (student, lesson) keys duplicate-free (the
model of the LessonProgress unique_together constraint). -/
theorem upsertProgress_keys_nodup (lps : List LessonProgress)
    (p : LessonProgress)
    (h : (lps.map (fun q => (q.student, q.lessonId))).Nodup) :
    ((upsertProgress lps p).map
      (fun q => (q.student, q.lessonId))).Nodup := by
  unfold upsertProgress
  by_cases hany : lps.any
      (fun q => q.student == p.student && q.lessonId == p.lessonId) = true
  · rw [if_pos hany]
    have hmap : (lps.map (fun q =>
        if q.student == p.student && q.lessonId == p.lessonId then p
        else q)).map (fun q => (q.student, q.lessonId)) =
        lps.map (fun q => (q.student, q.lessonId)) := by
      rw [List.map_map]
      apply List.map_congr_left
      intro q _
      by_cases hq : (q.student == p.student && q.lessonId == p.lessonId)
          = true
      · simp only [Bool.and_eq_true, beq_iff_eq] at hq
        simp [Function.comp, hq.1, hq.2]
      · simp [Function.comp, hq]
    rw [hmap]
    exact h
  · rw [if_neg hany]
    rw [List.map_append]
    rw [List.nodup_append]
    refine ⟨h, by simp, ?_⟩
    intro k hk hk2
    simp only [List.map_cons, List.map_nil, List.mem_singleton] at hk2
    subst hk2
    obtain ⟨q, hq, hqe⟩ := List.mem_map.mp hk
    have := (List.any_eq_false.mp (Bool.eq_false_iff.mpr hany)) q hq
    simp only [Bool.and_eq_true, beq_iff_eq, not_and] at this
    have h1 : q.student = p.student := congrArg Prod.fst hqe
    have h2 : q.lessonId = p.lessonId := congrArg Prod.snd hqe
    exact this h1 h2

/-- The completed-lesson count of a course never exceeds the course's
lesson count: completed rows have pairwise-distinct lesson ids (key
uniqueness) and each resolves to a lesson of the course. -/
theorem completedCount_le_totalLessons (lps : List LessonProgress)
    (lessons : List Lesson) (mods : List CourseModule) (uid cid : Nat)
    (hkeys : (lps.map (fun q => (q.student, q.lessonId))).Nodup) :
    completedCount lps lessons mods uid cid ≤
      totalLessons lessons mods cid := by
  unfold completedCount totalLessons
  set pA : LessonProgress → Bool := fun p =>
    p.student == uid && p.is_completed &&
      (match lessons.find? (fun l => l.id == p.lessonId) with
       | some l => lessonInCourse mods cid l
       | none => false) with hpA
  set A := lps.filter pA with hA
  have hsubl : A.Sublist lps := List.filter_sublist lps
  have hkeysA : (A.map (fun q => (q.student, q.lessonId))).Nodup :=
    (hsubl.map (fun q => (q.student, q.lessonId))).nodup hkeys
  have hAnodup : A.Nodup := List.Nodup.of_map _ hkeysA
  have hinj := List.inj_on_of_nodup_map hkeysA
  have hstud : ∀ x ∈ A, x.student = uid := by
    intro x hx
    have := (List.mem_filter.mp hx).2
    rw [hpA] at this
    simp only [Bool.and_eq_true, beq_iff_eq] at this
    exact this.1.1
  have hidsN : (A.map (fun q => q.lessonId)).Nodup := by
    apply List.Nodup.map_on ?_ hAnodup
    intro x hx y hy hxy
    exact hinj hx hy (by rw [hstud x hx, hstud y hy, hxy])
  have hsub : (A.map (fun q => q.lessonId)) ⊆
      ((lessons.filter (fun l => lessonInCourse mods cid l)).map
        (fun l => l.id)) := by
    intro i hi
    obtain ⟨x, hxA, rfl⟩ := List.mem_map.mp hi
    have hpx := (List.mem_filter.mp hxA).2
    rw [hpA] at hpx
    simp only [Bool.and_eq_true] at hpx
    rcases hpx with ⟨-, hmatch⟩
    cases hf : lessons.find? (fun l => l.id == x.lessonId) with
    | none => rw [hf] at hmatch; cases hmatch
    | some l =>
      rw [hf] at hmatch
      have hlm : l ∈ lessons := List.mem_of_find?_eq_some hf
      have hlid : l.id = x.lessonId := by
        have := List.find?_some hf
        simpa using this
      refine List.mem_map.mpr ⟨l, List.mem_filter.mpr ⟨hlm, hmatch⟩, hlid⟩
  calc A.length = (A.map (fun q => q.lessonId)).length :=
        (List.length_map _ _).symm
    _ ≤ ((lessons.filter (fun l => lessonInCourse mods cid l)).map
          (fun l => l.id)).length :=
        (List.subperm_of_subset hidsN hsub).length_le
    _ = (lessons.filter (fun l => lessonInCourse mods cid l)).length :=
        List.length_map _ _

/-- C7: all three modeled operations preserve progress ∈ [0,100]: enroll
creates rows at 0, unenroll only flips status/active, and the progress
recomputation writes (completed/total)·100 with completed ≤ total. -/
theorem C7_progress_range_invariant (db : DB)
    (hinv : progressInRange db)
    (hkeys : (db.lessonProgress.map
      (fun q => (q.student, q.lessonId))).Nodup) :
    (∀ user cid, progressInRange (enroll_course db user cid).2) ∧
    (∀ user cid, progressInRange (unenroll_course db user cid).2) ∧
    (∀ uid lessonId cpOpt timeSpent isCompleted now,
      progressInRange (update_lesson_progress db uid lessonId cpOpt
        timeSpent isCompleted now).2) := by
  refine ⟨?_, ?_, ?_⟩
  · intro user cid e he
    unfold enroll_course at he
    split at he
    · exact hinv e he
    · split at he
      · exact hinv e he
      · split at he
        · split at he
          · exact hinv e he
          · split at he
            · exact hinv e he
            · simp only at he
              rcases List.mem_append.mp he with h | h
              · exact hinv e h
              · simp only [List.mem_singleton] at h
                subst h
                norm_num
        · exact hinv e he
  · intro user cid e he
    unfold unenroll_course at he
    split at he
    · exact hinv e he
    · split at he
      · exact hinv e he
      · split at he
        · simp only at he
          obtain ⟨e0, he0, rfl⟩ := List.mem_map.mp he
          split
          · exact hinv e0 he0
          · exact hinv e0 he0
        · exact hinv e he
  · intro uid lessonId cpOpt timeSpent isCompleted now e he
    unfold update_lesson_progress at he
    split at he
    · exact hinv e he
    · split at he
      · exact hinv e he
      · rename_i cid hcid
        split at he
        · simp only [recomputeEnrollments] at he
          split at he
          · rename_i hTot
            obtain ⟨e0, he0, rfl⟩ := List.mem_map.mp he
            by_cases hm : (e0.student == uid && e0.courseId == cid) = true
            · rw [if_pos hm]
              have hk : completedCount (upsertProgress db.lessonProgress
                  (newProgressRow db uid lessonId cpOpt timeSpent
                    isCompleted now)) db.lessons db.modules uid cid ≤
                  totalLessons db.lessons db.modules cid :=
                completedCount_le_totalLessons _ _ _ _ _
                  (upsertProgress_keys_nodup _ _ hkeys)
              constructor
              · simp only
                positivity
              · simp only
                have hNpos : (0 : ℚ) <
                    (totalLessons db.lessons db.modules cid : ℚ) := by
                  exact_mod_cast hTot
                have hdiv : ((completedCount (upsertProgress
                    db.lessonProgress (newProgressRow db uid lessonId cpOpt
                      timeSpent isCompleted now)) db.lessons db.modules uid
                      cid : ℚ) /
                    (totalLessons db.lessons db.modules cid : ℚ)) ≤ 1 := by
                  rw [div_le_one hNpos]
                  exact_mod_cast hk
                calc ((completedCount (upsertProgress db.lessonProgress
                      (newProgressRow db uid lessonId cpOpt timeSpent
                        isCompleted now)) db.lessons db.modules uid
                        cid : ℚ) /
                      (totalLessons db.lessons db.modules cid : ℚ)) * 100
                      ≤ 1 * 100 := by
                        exact mul_le_mul_of_nonneg_right hdiv (by norm_num)
                  _ = 100 := one_mul 100
            · rw [if_neg hm]
              exact hinv e0 he0
          · exact hinv e he
        · exact hinv e he

/-- C7 witness state: same 3-lesson course, used to exercise all three
operations. -/
def dbC7 : DB :=
  { courses := [{ id := 1, title := "T", slug := "t", teacher := 2,
                  is_published := true, max_students := none }],
    modules := [{ id := 10, courseId := 1, is_published := true }],
    lessons := [{ id := 100, moduleId := 10, is_published := true },
                { id := 101, moduleId := 10, is_published := true },
                { id := 102, moduleId := 10, is_published := true }],
    enrollments := [{ student := 7, courseId := 1, status := .enrolled,
                      is_active := true, progress_percentage := 0,
                      completed_at := none }],
    lessonProgress := [] }

/-- C7 witness: the invariant after a concrete enroll, unenroll and
progress update on the witness state. -/
theorem C7_progress_range_invariant_witness :
    progressInRange (enroll_course dbC7
      (some { userId := 8, role := some .student }) 1).2 ∧
    progressInRange (unenroll_course dbC7
      (some { userId := 7, role := some .student }) 1).2 ∧
    progressInRange
      (update_lesson_progress dbC7 7 100 none 3 true 5).2 := by
  have hinv : progressInRange dbC7 := by
    intro e he
    simp only [dbC7, List.mem_singleton] at he
    subst he
    norm_num
  have h := C7_progress_range_invariant dbC7 hinv (by simp [dbC7])
  exact ⟨h.1 (some { userId := 8, role := some .student }) 1,
    h.2.1 (some { userId := 7, role := some .student }) 1,
    h.2.2 7 100 none 3 true 5⟩

end LMS
